import Mathlib

/-!
Land Enrichment App — verification of the listing-aggregation pipeline.

Shallow embedding of `App/app.py`: the two vendor scrapers
(`scrape_land_com`, `scrape_landwatch`), the haversine distance, and the
`/api/listings` aggregation (`get_listings`).

Modelling conventions:
* JSON numbers are rationals (`ℚ`); a missing key is `none`.
* Python truthiness on an optional number (`if listing['latitude']`) is
  `truthyQ`: `none` and `some 0` are falsy, everything else truthy.
* The network is an oracle passed to the scraper: the outcome of the
  first-page fetch is `Option SearchResults` (`none` = any exception
  during warm-up, fetch, `raise_for_status` or `.json()`), and each page
  `n ≥ 2` gets a `PageResp` (`netErr` = the GET raised; `httpResp s b`
  = a response with status `s` whose `.json()` gives `some` data or
  `none` when the body is malformed and `.json()` would raise).
  `time.sleep` calls have no effect on the returned value and are
  dropped.
* The query parameters of the `/api/listings` route are parsed with
  `type=int`, so the four numeric filters are `ℤ`.
* Python's `round(x, 2)` is modelled on `ℝ` as exact rounding of
  `x * 100` to an integer, divided by 100.
-/

namespace LandEnrichment

/-- Python truthiness of an optional JSON number: `None` and `0` are falsy. -/
def truthyQ : Option ℚ → Bool
  | none => false
  | some x => x != 0

/-- One raw property record of a vendor JSON response; each field is the
value found under the corresponding key (`none` when the key is absent).
`siteListingId` / `lwPropertyId` hold the string form of the native id. -/
structure RawProp where
  siteListingId : Option String := none
  lwPropertyId : Option String := none
  title : Option String := none
  city : Option String := none
  stateAbbreviation : Option String := none
  zip : Option String := none
  county : Option String := none
  description : Option String := none
  canonicalUrl : Option String := none
  latitude : Option ℚ := none
  longitude : Option ℚ := none
  acres : Option ℚ := none
  price : Option ℚ := none
deriving DecidableEq, Repr

/-- The parsed `searchResults` object of a vendor response
(`.get('totalCount', 0)` and `.get('propertyResults', [])`). -/
structure SearchResults where
  totalCount : Nat := 0
  propertyResults : List RawProp := []
deriving DecidableEq, Repr

/-- Outcome of fetching one page with number `≥ 2`. -/
inductive PageResp where
  /-- `session.get`/`requests.get` raised (network failure, timeout). -/
  | netErr : PageResp
  /-- A response arrived with this status code; the payload is `some`
  parsed data, or `none` when the body is malformed so `.json()` raises. -/
  | httpResp (status : Nat) (body : Option SearchResults) : PageResp
deriving DecidableEq, Repr

/-- The normalized listing dict built by both scrapers (before the
aggregator attaches `distance_to_center`, which is modelled separately as
the second component of a pair). -/
structure Listing where
  listing_id : String
  source : String
  title : String
  city : String
  state : String
  zip : String
  county : String
  latitude : Option ℚ
  longitude : Option ℚ
  acres : Option ℚ
  price : Option ℚ
  description : String
  listing_url : String
deriving DecidableEq, Repr

/-- The row `SELECT city, state, latitude, longitude FROM city_ratings`. -/
structure CityRow where
  city : String
  state : String
  latitude : Option ℚ
  longitude : Option ℚ
deriving DecidableEq, Repr

/-- `STATE_CODE_TO_NAME` table of `app.py`. -/
def STATE_CODE_TO_NAME : List (String × String) :=
  [("AL", "alabama"), ("AZ", "arizona"), ("AR", "arkansas"), ("CA", "california"),
   ("CO", "colorado"), ("DE", "delaware"), ("FL", "florida"), ("GA", "georgia"),
   ("ID", "idaho"), ("IL", "illinois"), ("IN", "indiana"), ("IA", "iowa"),
   ("KS", "kansas"), ("KY", "kentucky"), ("LA", "louisiana"), ("MD", "maryland"),
   ("MN", "minnesota"), ("MS", "mississippi"), ("MO", "missouri"), ("NE", "nebraska"),
   ("NV", "nevada"), ("NH", "new-hampshire"), ("NJ", "new-jersey"), ("NM", "new-mexico"),
   ("NY", "new-york"), ("NC", "north-carolina"), ("OH", "ohio"), ("OK", "oklahoma"),
   ("OR", "oregon"), ("PA", "pennsylvania"), ("SC", "south-carolina"), ("TN", "tennessee"),
   ("TX", "texas"), ("UT", "utah"), ("VA", "virginia"), ("WA", "washington"),
   ("WV", "west-virginia"), ("WI", "wisconsin"), ("DC", "washington-dc")]

/-- `LANDCOM_PROPERTY_TYPES` table of `app.py`. -/
def LANDCOM_PROPERTY_TYPES : List (String × Nat) :=
  [("homesite", 8), ("recreational", 4), ("waterfront", 3584),
   ("undeveloped", 32), ("commercial", 64)]

/-- `LANDWATCH_PROPERTY_TYPES` table of `app.py`. -/
def LANDWATCH_PROPERTY_TYPES : List (String × Nat) :=
  [("recreational", 4), ("undeveloped", 32), ("commercial", 64),
   ("homesite", 4096), ("waterfront", 3584)]

/-- Python `tbl.get(k, 0)` on an association list. -/
def dictGet0 (tbl : List (String × Nat)) (k : String) : Nat :=
  ((tbl.find? (fun e => e.1 == k)).map (fun e => e.2)).getD 0

/-- Python `tbl.get(k, d)` on a string association list. -/
def dictGetS (tbl : List (String × String)) (k d : String) : String :=
  ((tbl.find? (fun e => e.1 == k)).map (fun e => e.2)).getD d

/-- `city.lower().replace(' ', '-')`. -/
def slugify (city : String) : String :=
  city.toLower.replace " " "-"

/-- Land.com type-filter computation: default `3692` (all types);
if `property_types` is non-empty and the summed codes are positive,
use the sum. -/
def landcom_type_filter (property_types : List String) : Nat :=
  if !property_types.isEmpty then
    let type_sum := (property_types.map (dictGet0 LANDCOM_PROPERTY_TYPES)).sum
    if type_sum > 0 then type_sum else 3692
  else 3692

/-- LandWatch type-filter computation: default `7780` (all types). -/
def landwatch_type_filter (property_types : List String) : Nat :=
  if !property_types.isEmpty then
    let type_sum := (property_types.map (dictGet0 LANDWATCH_PROPERTY_TYPES)).sum
    if type_sum > 0 then type_sum else 7780
  else 7780

/-- Land.com base URL (`base_url` of `scrape_land_com`). -/
def landcom_base_url (city state_code : String) (max_price max_acres : ℤ)
    (property_types : List String) : String :=
  let type_filter := landcom_type_filter property_types
  let city_slug := slugify city
  let price_filter := "under-" ++ toString max_price
  let acres_filter := if max_acres < 1000 then "under-" ++ toString max_acres ++ "-acres" else "any-size"
  "https://www.land.com/api/property/search/0/" ++ city_slug ++ "-" ++ state_code ++
    "/all-land/no-house/for-sale/" ++ price_filter ++ "/" ++ acres_filter ++
    "/is-active/type-" ++ toString type_filter ++ "/"

/-- LandWatch base URL (`base_url` of `scrape_landwatch`). -/
def landwatch_base_url (city state_code : String) (min_price max_price min_acres max_acres : ℤ)
    (property_types : List String) : String :=
  let type_filter := landwatch_type_filter property_types
  let state_name := dictGetS STATE_CODE_TO_NAME state_code state_code.toLower
  let city_slug := slugify city
  "https://www.landwatch.com/api/property/search/1113/" ++ state_name ++ "-land-for-sale/" ++
    city_slug ++ "/prop-types-" ++ toString type_filter ++ "/price-" ++ toString min_price ++
    "-" ++ toString max_price ++ "/acres-" ++ toString min_acres ++ "-" ++ toString max_acres ++
    "/available"

/-- The listing dict built from one Land.com property record. -/
def normalize_land_com (prop : RawProp) : Listing :=
  { listing_id := "landcom_" ++ prop.siteListingId.getD ""
    source := "Land.com"
    title := prop.title.getD ""
    city := prop.city.getD ""
    state := prop.stateAbbreviation.getD ""
    zip := prop.zip.getD ""
    county := prop.county.getD ""
    latitude := prop.latitude
    longitude := prop.longitude
    acres := prop.acres
    price := prop.price
    description := prop.description.getD ""
    listing_url := "https://www.land.com" ++ prop.canonicalUrl.getD "" }

/-- The listing dict built from one LandWatch property record. -/
def normalize_landwatch (prop : RawProp) : Listing :=
  { listing_id := "landwatch_" ++ prop.lwPropertyId.getD ""
    source := "LandWatch"
    title := prop.title.getD ""
    city := prop.city.getD ""
    state := prop.stateAbbreviation.getD ""
    zip := prop.zip.getD ""
    county := prop.county.getD ""
    latitude := prop.latitude
    longitude := prop.longitude
    acres := prop.acres
    price := prop.price
    description := prop.description.getD ""
    listing_url := "https://www.landwatch.com" ++ prop.canonicalUrl.getD "" }

/-- The Land.com per-record filter (lines 147-152 / 184-189 of `app.py`):
`if lat and lon: if price and acres: <both ranges> elif acres and <acres range>`. -/
def landcom_include (min_price max_price min_acres max_acres : ℤ) (l : Listing) : Bool :=
  if truthyQ l.latitude && truthyQ l.longitude then
    if truthyQ l.price && truthyQ l.acres then
      decide ((min_price : ℚ) ≤ l.price.getD 0 ∧ l.price.getD 0 ≤ (max_price : ℚ) ∧
        (min_acres : ℚ) ≤ l.acres.getD 0 ∧ l.acres.getD 0 ≤ (max_acres : ℚ))
    else
      truthyQ l.acres &&
        decide ((min_acres : ℚ) ≤ l.acres.getD 0 ∧ l.acres.getD 0 ≤ (max_acres : ℚ))
  else false

/-- The LandWatch per-record filter (line 278 / 320): coordinates only. -/
def landwatch_include (l : Listing) : Bool :=
  truthyQ l.latitude && truthyQ l.longitude

/-- The `for prop in properties` loop body of `scrape_land_com`:
normalize each record and append it when the filter accepts it. -/
def process_landcom_page (min_price max_price min_acres max_acres : ℤ) :
    List RawProp → List Listing
  | [] => []
  | prop :: rest =>
    let listing := normalize_land_com prop
    if landcom_include min_price max_price min_acres max_acres listing then
      listing :: process_landcom_page min_price max_price min_acres max_acres rest
    else
      process_landcom_page min_price max_price min_acres max_acres rest

/-- The `for prop in properties` loop body of `scrape_landwatch`. -/
def process_landwatch_page : List RawProp → List Listing
  | [] => []
  | prop :: rest =>
    let listing := normalize_landwatch prop
    if landwatch_include listing then
      listing :: process_landwatch_page rest
    else
      process_landwatch_page rest

/-- `total_pages` computation shared by both scrapers (only evaluated when
`listings_per_page > 0`): `min((total_count + listings_per_page - 1) //
listings_per_page, 20)`. -/
def total_pages (total_count listings_per_page : Nat) : Nat :=
  min ((total_count + listings_per_page - 1) / listings_per_page) 20

/-- The page numbers visited by `range(2, total_pages + 1)`. -/
def page_range (tp : Nat) : List Nat :=
  List.range' 2 (tp - 1)

/-- The `for page_num in range(2, total_pages + 1)` loop of
`scrape_land_com`: a raised exception (network error, or malformed JSON on
a 200 response) escapes to the outer `except` and stops the whole loop,
a non-200 status only skips the page. -/
def fetch_landcom_pages (min_price max_price min_acres max_acres : ℤ)
    (pages : Nat → PageResp) : List Nat → List Listing
  | [] => []
  | page_num :: rest =>
    match pages page_num with
    | PageResp.netErr => []
    | PageResp.httpResp status body =>
      if status ≠ 200 then
        fetch_landcom_pages min_price max_price min_acres max_acres pages rest
      else
        match body with
        | none => []
        | some page_data =>
          process_landcom_page min_price max_price min_acres max_acres page_data.propertyResults ++
            fetch_landcom_pages min_price max_price min_acres max_acres pages rest

/-- The pagination loop of `scrape_landwatch` (same control flow, only the
per-record treatment differs). -/
def fetch_landwatch_pages (pages : Nat → PageResp) : List Nat → List Listing
  | [] => []
  | page_num :: rest =>
    match pages page_num with
    | PageResp.netErr => []
    | PageResp.httpResp status body =>
      if status ≠ 200 then
        fetch_landwatch_pages pages rest
      else
        match body with
        | none => []
        | some page_data =>
          process_landwatch_page page_data.propertyResults ++
            fetch_landwatch_pages pages rest

/-- `scrape_land_com`: `first` is the outcome of the warm-up plus
first-page fetch/parse (`none` = an exception was raised, so the function
returns the — still empty — accumulator). The `base_url` is computed as in
the source; it determines which listings the network returns, which the
oracle `first`/`pages` abstracts. -/
def scrape_land_com (city state_code : String)
    (min_price max_price min_acres max_acres : ℤ) (property_types : List String)
    (first : Option SearchResults) (pages : Nat → PageResp) : List Listing :=
  let _base_url := landcom_base_url city state_code max_price max_acres property_types
  match first with
  | none => []
  | some first_page_data =>
    let properties := first_page_data.propertyResults
    let listings_per_page := properties.length
    if listings_per_page > 0 then
      let tp := total_pages first_page_data.totalCount listings_per_page
      process_landcom_page min_price max_price min_acres max_acres properties ++
        fetch_landcom_pages min_price max_price min_acres max_acres pages (page_range tp)
    else []

/-- `scrape_landwatch`, same skeleton as `scrape_land_com`. -/
def scrape_landwatch (city state_code : String)
    (min_price max_price min_acres max_acres : ℤ) (property_types : List String)
    (first : Option SearchResults) (pages : Nat → PageResp) : List Listing :=
  let _base_url := landwatch_base_url city state_code min_price max_price min_acres max_acres property_types
  match first with
  | none => []
  | some first_page_data =>
    let properties := first_page_data.propertyResults
    let listings_per_page := properties.length
    if listings_per_page > 0 then
      let tp := total_pages first_page_data.totalCount listings_per_page
      process_landwatch_page properties ++
        fetch_landwatch_pages pages (page_range tp)
    else []

/-- One step of the distance-annotation loop of `get_listings` (only run
when the city coordinates are truthy): attach
`haversine(city_lon, city_lat, listing['longitude'], listing['latitude'])`
when the listing's coordinates are truthy, `None` otherwise. The distance
function is a parameter so that the pipeline stays executable; the route
instantiates it with the haversine. -/
def annotate_listing {α : Type} (dist : ℚ → ℚ → ℚ → ℚ → α)
    (city_lat city_lon : Option ℚ) (l : Listing) : Listing × Option α :=
  if truthyQ l.latitude && truthyQ l.longitude then
    (l, some (dist (city_lon.getD 0) (city_lat.getD 0) (l.longitude.getD 0) (l.latitude.getD 0)))
  else (l, none)

/-- The distance-annotation pass of `get_listings` (lines 424-434). -/
def annotate_all {α : Type} (dist : ℚ → ℚ → ℚ → ℚ → α)
    (city_lat city_lon : Option ℚ) (ls : List Listing) : List (Listing × Option α) :=
  if truthyQ city_lat && truthyQ city_lon then
    ls.map (annotate_listing dist city_lat city_lon)
  else
    ls.map (fun l => (l, none))

/-- The `/api/listings` aggregation after city resolution succeeded:
scrape the selected sources (default both), concatenate, annotate with the
distance to the city center. Each vendor's network behaviour is its own
oracle pair. -/
def get_listings {α : Type} (dist : ℚ → ℚ → ℚ → ℚ → α) (cityRow : CityRow)
    (min_price max_price min_acres max_acres : ℤ)
    (sources property_types : List String)
    (lc_first : Option SearchResults) (lc_pages : Nat → PageResp)
    (lw_first : Option SearchResults) (lw_pages : Nat → PageResp) :
    List (Listing × Option α) :=
  let landcom_listings :=
    if sources.isEmpty || sources.contains "landcom" then
      scrape_land_com cityRow.city cityRow.state min_price max_price min_acres max_acres
        property_types lc_first lc_pages
    else []
  let landwatch_listings :=
    if sources.isEmpty || sources.contains "landwatch" then
      scrape_landwatch cityRow.city cityRow.state min_price max_price min_acres max_acres
        property_types lw_first lw_pages
    else []
  annotate_all dist cityRow.latitude cityRow.longitude (landcom_listings ++ landwatch_listings)

/-- Exact rounding to two decimal places, the `ℝ` model of Python's
`round(x, 2)`. -/
noncomputable def round2 (x : ℝ) : ℝ :=
  (round (x * 100) : ℤ) / 100

/-- The `haversine` function of `app.py` on exact reals: degrees to
radians, haversine formula, earth radius 3956 miles, rounded to two
decimals. -/
noncomputable def haversine (lon1 lat1 lon2 lat2 : ℚ) : ℝ :=
  let rlon1 : ℝ := (lon1 : ℝ) * (Real.pi / 180)
  let rlat1 : ℝ := (lat1 : ℝ) * (Real.pi / 180)
  let rlon2 : ℝ := (lon2 : ℝ) * (Real.pi / 180)
  let rlat2 : ℝ := (lat2 : ℝ) * (Real.pi / 180)
  let dlon := rlon2 - rlon1
  let dlat := rlat2 - rlat1
  let a := Real.sin (dlat / 2) ^ 2 + Real.cos rlat1 * Real.cos rlat2 * Real.sin (dlon / 2) ^ 2
  let c := 2 * Real.arcsin (Real.sqrt a)
  round2 (3956 * c)

/-!
Helper lemmas about the embedded definitions.
-/

/-- Spec-side statement of the Vendor A inclusion policy, following the
claim's wording (with "present" read as Python-truthy, as the code tests
it): coordinates present, and either both price and acres present with
both ranges satisfied, or acres present and within range with price
absent. -/
def landcom_spec_included (min_price max_price min_acres max_acres : ℤ) (l : Listing) : Prop :=
  truthyQ l.latitude = true ∧ truthyQ l.longitude = true ∧
    ((truthyQ l.price = true ∧ truthyQ l.acres = true ∧
        (min_price : ℚ) ≤ l.price.getD 0 ∧ l.price.getD 0 ≤ (max_price : ℚ) ∧
        (min_acres : ℚ) ≤ l.acres.getD 0 ∧ l.acres.getD 0 ≤ (max_acres : ℚ)) ∨
      (truthyQ l.price = false ∧ truthyQ l.acres = true ∧
        (min_acres : ℚ) ≤ l.acres.getD 0 ∧ l.acres.getD 0 ≤ (max_acres : ℚ)))

theorem landcom_include_iff (mp Mp ma Ma : ℤ) (l : Listing) :
    landcom_include mp Mp ma Ma l = true ↔ landcom_spec_included mp Mp ma Ma l := by
  unfold landcom_include landcom_spec_included
  cases h1 : truthyQ l.latitude <;> cases h2 : truthyQ l.longitude <;>
    cases h3 : truthyQ l.price <;> cases h4 : truthyQ l.acres <;>
      simp [h1, h2, h3, h4, and_assoc]

theorem mem_process_landcom_page (mp Mp ma Ma : ℤ) (props : List RawProp) (l : Listing) :
    l ∈ process_landcom_page mp Mp ma Ma props ↔
      ∃ p ∈ props, l = normalize_land_com p ∧ landcom_include mp Mp ma Ma l = true := by
  induction props with
  | nil => simp [process_landcom_page]
  | cons p rest ih =>
    show l ∈ (if landcom_include mp Mp ma Ma (normalize_land_com p) then
        normalize_land_com p :: process_landcom_page mp Mp ma Ma rest
      else process_landcom_page mp Mp ma Ma rest) ↔ _
    by_cases hc : landcom_include mp Mp ma Ma (normalize_land_com p) = true
    · rw [if_pos hc]
      simp only [List.mem_cons, ih]
      constructor
      · rintro (rfl | ⟨q, hq, rfl, hq2⟩)
        · exact ⟨p, Or.inl rfl, rfl, hc⟩
        · exact ⟨q, Or.inr hq, rfl, hq2⟩
      · rintro ⟨q, rfl | hq', rfl, hq2⟩
        · exact Or.inl rfl
        · exact Or.inr ⟨q, hq', rfl, hq2⟩
    · rw [if_neg hc, ih]
      constructor
      · rintro ⟨q, hq, rfl, hq2⟩
        exact ⟨q, List.mem_cons_of_mem p hq, rfl, hq2⟩
      · rintro ⟨q, hq, rfl, hq2⟩
        rcases List.mem_cons.mp hq with rfl | hq'
        · exact absurd hq2 hc
        · exact ⟨q, hq', rfl, hq2⟩

theorem mem_process_landwatch_page (props : List RawProp) (l : Listing) :
    l ∈ process_landwatch_page props ↔
      ∃ p ∈ props, l = normalize_landwatch p ∧ landwatch_include l = true := by
  induction props with
  | nil => simp [process_landwatch_page]
  | cons p rest ih =>
    show l ∈ (if landwatch_include (normalize_landwatch p) then
        normalize_landwatch p :: process_landwatch_page rest
      else process_landwatch_page rest) ↔ _
    by_cases hc : landwatch_include (normalize_landwatch p) = true
    · rw [if_pos hc]
      simp only [List.mem_cons, ih]
      constructor
      · rintro (rfl | ⟨q, hq, rfl, hq2⟩)
        · exact ⟨p, Or.inl rfl, rfl, hc⟩
        · exact ⟨q, Or.inr hq, rfl, hq2⟩
      · rintro ⟨q, rfl | hq', rfl, hq2⟩
        · exact Or.inl rfl
        · exact Or.inr ⟨q, hq', rfl, hq2⟩
    · rw [if_neg hc, ih]
      constructor
      · rintro ⟨q, hq, rfl, hq2⟩
        exact ⟨q, List.mem_cons_of_mem p hq, rfl, hq2⟩
      · rintro ⟨q, hq, rfl, hq2⟩
        rcases List.mem_cons.mp hq with rfl | hq'
        · exact absurd hq2 hc
        · exact ⟨q, hq', rfl, hq2⟩

theorem mem_fetch_landcom_pages (mp Mp ma Ma : ℤ) (tr : Nat → PageResp)
    (ps : List Nat) (l : Listing) (h : l ∈ fetch_landcom_pages mp Mp ma Ma tr ps) :
    ∃ p, l = normalize_land_com p ∧ landcom_include mp Mp ma Ma l = true := by
  induction ps with
  | nil => cases h
  | cons n rest ih =>
    unfold fetch_landcom_pages at h
    split at h
    · cases h
    · split at h
      · exact ih h
      · split at h
        · cases h
        · rcases List.mem_append.mp h with h1 | h2
          · rcases (mem_process_landcom_page mp Mp ma Ma _ l).mp h1 with
              ⟨p, _, hpl, hinc⟩
            exact ⟨p, hpl, hinc⟩
          · exact ih h2

theorem mem_fetch_landwatch_pages (tr : Nat → PageResp)
    (ps : List Nat) (l : Listing) (h : l ∈ fetch_landwatch_pages tr ps) :
    ∃ p, l = normalize_landwatch p ∧ landwatch_include l = true := by
  induction ps with
  | nil => cases h
  | cons n rest ih =>
    unfold fetch_landwatch_pages at h
    split at h
    · cases h
    · split at h
      · exact ih h
      · split at h
        · cases h
        · rcases List.mem_append.mp h with h1 | h2
          · rcases (mem_process_landwatch_page _ l).mp h1 with ⟨p, _, hpl, hinc⟩
            exact ⟨p, hpl, hinc⟩
          · exact ih h2

theorem mem_scrape_land_com_cases (city sc : String) (mp Mp ma Ma : ℤ)
    (pts : List String) (first : Option SearchResults) (tr : Nat → PageResp) (l : Listing)
    (h : l ∈ scrape_land_com city sc mp Mp ma Ma pts first tr) :
    ∃ p, l = normalize_land_com p ∧ landcom_include mp Mp ma Ma l = true := by
  cases first with
  | none => cases h
  | some sr =>
    unfold scrape_land_com at h
    dsimp only at h
    split at h
    · rcases List.mem_append.mp h with h1 | h2
      · rcases (mem_process_landcom_page mp Mp ma Ma sr.propertyResults l).mp h1 with
          ⟨p, _, hpl, hinc⟩
        exact ⟨p, hpl, hinc⟩
      · exact mem_fetch_landcom_pages mp Mp ma Ma tr _ l h2
    · cases h

theorem mem_scrape_landwatch_cases (city sc : String) (mp Mp ma Ma : ℤ)
    (pts : List String) (first : Option SearchResults) (tr : Nat → PageResp) (l : Listing)
    (h : l ∈ scrape_landwatch city sc mp Mp ma Ma pts first tr) :
    ∃ p, l = normalize_landwatch p ∧ landwatch_include l = true := by
  cases first with
  | none => cases h
  | some sr =>
    unfold scrape_landwatch at h
    dsimp only at h
    split at h
    · rcases List.mem_append.mp h with h1 | h2
      · rcases (mem_process_landwatch_page sr.propertyResults l).mp h1 with
          ⟨p, _, hpl, hinc⟩
        exact ⟨p, hpl, hinc⟩
      · exact mem_fetch_landwatch_pages tr _ l h2
    · cases h

/-!
Claim theorems.
-/

/-- A record with coordinates, acres 5 and no price (the claim's first
"in particular" case for Vendor A). -/
def sampleAcresOnly : RawProp :=
  { siteListingId := some "1", latitude := some 33, longitude := some (-97), acres := some 5 }

/-- A record with coordinates but neither price nor acres (the claim's
second "in particular" case for Vendor A). -/
def sampleBareCoords : RawProp :=
  { siteListingId := some "2", latitude := some 33, longitude := some (-97) }

/-- C1: Vendor A (Land.com) inclusion policy. On every page, a normalized
record enters the result iff its latitude and longitude are present
(truthy) and either both price and acres are present with
`minPrice ≤ price ≤ maxPrice` and `minAcres ≤ acres ≤ maxAcres`, or acres
is present and within range while price is absent; and every listing
`scrape_land_com` ever returns satisfies that policy, for every network
behaviour. -/
theorem landcom_inclusion_policy (mp Mp ma Ma : ℤ) (props : List RawProp) (l : Listing) :
    (l ∈ process_landcom_page mp Mp ma Ma props ↔
      ∃ p ∈ props, l = normalize_land_com p ∧ landcom_spec_included mp Mp ma Ma l) ∧
    ∀ city sc pts first tr,
      l ∈ scrape_land_com city sc mp Mp ma Ma pts first tr →
        landcom_spec_included mp Mp ma Ma l := by
  constructor
  · rw [mem_process_landcom_page]
    constructor
    · rintro ⟨p, hp, heq, hinc⟩
      exact ⟨p, hp, heq, (landcom_include_iff mp Mp ma Ma l).mp hinc⟩
    · rintro ⟨p, hp, heq, hspec⟩
      exact ⟨p, hp, heq, (landcom_include_iff mp Mp ma Ma l).mpr hspec⟩
  · intro city sc pts first tr h
    rcases mem_scrape_land_com_cases city sc mp Mp ma Ma pts first tr l h with ⟨p, _, hinc⟩
    exact (landcom_include_iff mp Mp ma Ma l).mp hinc

/-- Witness for `landcom_inclusion_policy`: with the default ranges, the
record with coordinates, acres 5 and no price is included. -/
theorem landcom_inclusion_policy_witness :
    normalize_land_com sampleAcresOnly ∈ process_landcom_page 0 1000000 0 100 [sampleAcresOnly] :=
  (landcom_inclusion_policy 0 1000000 0 100 [sampleAcresOnly]
      (normalize_land_com sampleAcresOnly)).1.mpr
    ⟨sampleAcresOnly, List.mem_singleton.mpr rfl, rfl, by unfold landcom_spec_included; decide⟩

/-- C2: Vendor B (LandWatch) inclusion policy. On every page, a normalized
record enters the result iff its latitude and longitude are present
(truthy); every listing `scrape_landwatch` ever returns has both
coordinates; and price/acres never affect the inclusion test. -/
theorem landwatch_inclusion_policy (props : List RawProp) (l : Listing) :
    (l ∈ process_landwatch_page props ↔
      ∃ p ∈ props, l = normalize_landwatch p ∧
        truthyQ l.latitude = true ∧ truthyQ l.longitude = true) ∧
    (∀ city sc mp Mp ma Ma pts first tr,
      l ∈ scrape_landwatch city sc mp Mp ma Ma pts first tr →
        truthyQ l.latitude = true ∧ truthyQ l.longitude = true) ∧
    ∀ (l' : Listing) (pr ac : Option ℚ),
      landwatch_include { l' with price := pr, acres := ac } = landwatch_include l' := by
  refine ⟨?_, ?_, ?_⟩
  · rw [mem_process_landwatch_page]
    constructor
    · rintro ⟨p, hp, heq, hinc⟩
      exact ⟨p, hp, heq, by simpa [landwatch_include] using hinc⟩
    · rintro ⟨p, hp, heq, h1, h2⟩
      exact ⟨p, hp, heq, by simp [landwatch_include, h1, h2]⟩
  · intro city sc mp Mp ma Ma pts first tr h
    rcases mem_scrape_landwatch_cases city sc mp Mp ma Ma pts first tr l h with ⟨p, _, hinc⟩
    simpa [landwatch_include] using hinc
  · intro l' pr ac
    rfl

/-- Witness for `landwatch_inclusion_policy`: the record with bare
coordinates (no price, no acres) is included by Vendor B. -/
theorem landwatch_inclusion_policy_witness :
    normalize_landwatch sampleBareCoords ∈ process_landwatch_page [sampleBareCoords] :=
  (landwatch_inclusion_policy [sampleBareCoords] (normalize_landwatch sampleBareCoords)).1.mpr
    ⟨sampleBareCoords, List.mem_singleton.mpr rfl, rfl, by decide, by decide⟩

/-- C8: type-filter bitmask. For each vendor the filter is the sum of the
vendor's codes over the requested types (an unrecognized tag looks up to
0); an empty request or a zero sum falls back to the vendor's all-types
sentinel (3692 for Land.com, 7780 for LandWatch). In particular
`{homesite, waterfront}` for Land.com gives 8+3584=3592 and the empty set
gives 3692. -/
theorem type_filter_bitmask_spec :
    (∀ pts : List String,
      landcom_type_filter pts =
        if pts = [] ∨ (pts.map (dictGet0 LANDCOM_PROPERTY_TYPES)).sum = 0 then 3692
        else (pts.map (dictGet0 LANDCOM_PROPERTY_TYPES)).sum) ∧
    (∀ pts : List String,
      landwatch_type_filter pts =
        if pts = [] ∨ (pts.map (dictGet0 LANDWATCH_PROPERTY_TYPES)).sum = 0 then 7780
        else (pts.map (dictGet0 LANDWATCH_PROPERTY_TYPES)).sum) ∧
    (∀ t : String, t ∉ LANDCOM_PROPERTY_TYPES.map Prod.fst →
      dictGet0 LANDCOM_PROPERTY_TYPES t = 0) ∧
    (∀ t : String, t ∉ LANDWATCH_PROPERTY_TYPES.map Prod.fst →
      dictGet0 LANDWATCH_PROPERTY_TYPES t = 0) ∧
    landcom_type_filter ["homesite", "waterfront"] = 3592 ∧
    landcom_type_filter [] = 3692 := by
  refine ⟨?_, ?_, ?_, ?_, by decide, by decide⟩
  · intro pts
    cases pts with
    | nil => rfl
    | cons h t =>
      show (if (List.map (dictGet0 LANDCOM_PROPERTY_TYPES) (h :: t)).sum > 0 then
            (List.map (dictGet0 LANDCOM_PROPERTY_TYPES) (h :: t)).sum else 3692) =
          if (h :: t : List String) = [] ∨
              (List.map (dictGet0 LANDCOM_PROPERTY_TYPES) (h :: t)).sum = 0
          then 3692 else (List.map (dictGet0 LANDCOM_PROPERTY_TYPES) (h :: t)).sum
      rcases Nat.eq_zero_or_pos ((List.map (dictGet0 LANDCOM_PROPERTY_TYPES) (h :: t)).sum)
        with hz | hp
      · rw [hz, if_neg (lt_irrefl 0), if_pos (Or.inr rfl)]
      · have hcond : ¬((h :: t : List String) = [] ∨
            (List.map (dictGet0 LANDCOM_PROPERTY_TYPES) (h :: t)).sum = 0) := by
          rintro (hlist | hzero)
          · exact List.cons_ne_nil h t hlist
          · omega
        rw [if_pos hp, if_neg hcond]
  · intro pts
    cases pts with
    | nil => rfl
    | cons h t =>
      show (if (List.map (dictGet0 LANDWATCH_PROPERTY_TYPES) (h :: t)).sum > 0 then
            (List.map (dictGet0 LANDWATCH_PROPERTY_TYPES) (h :: t)).sum else 7780) =
          if (h :: t : List String) = [] ∨
              (List.map (dictGet0 LANDWATCH_PROPERTY_TYPES) (h :: t)).sum = 0
          then 7780 else (List.map (dictGet0 LANDWATCH_PROPERTY_TYPES) (h :: t)).sum
      rcases Nat.eq_zero_or_pos ((List.map (dictGet0 LANDWATCH_PROPERTY_TYPES) (h :: t)).sum)
        with hz | hp
      · rw [hz, if_neg (lt_irrefl 0), if_pos (Or.inr rfl)]
      · have hcond : ¬((h :: t : List String) = [] ∨
            (List.map (dictGet0 LANDWATCH_PROPERTY_TYPES) (h :: t)).sum = 0) := by
          rintro (hlist | hzero)
          · exact List.cons_ne_nil h t hlist
          · omega
        rw [if_pos hp, if_neg hcond]
  · intro t ht
    unfold dictGet0
    rw [List.find?_eq_none.mpr]
    · rfl
    · intro e he hbeq
      exact ht (List.mem_map.mpr ⟨e, he, by simpa using hbeq⟩)
  · intro t ht
    unfold dictGet0
    rw [List.find?_eq_none.mpr]
    · rfl
    · intro e he hbeq
      exact ht (List.mem_map.mpr ⟨e, he, by simpa using hbeq⟩)

/-- Witness for `type_filter_bitmask_spec`: the unrecognized tag "cabin"
contributes 0, and the two concrete bitmask values hold. -/
theorem type_filter_bitmask_spec_witness :
    dictGet0 LANDCOM_PROPERTY_TYPES "cabin" = 0 ∧
      landcom_type_filter ["homesite", "waterfront"] = 3592 ∧
      landcom_type_filter [] = 3692 :=
  ⟨type_filter_bitmask_spec.2.2.1 "cabin" (by decide),
    type_filter_bitmask_spec.2.2.2.2.1, type_filter_bitmask_spec.2.2.2.2.2⟩

/-- C5: pagination cap. With a non-empty first page,
`total_pages = min(ceil(totalCount / pageSize), 20)`; `totalCount = 10000`
with `pageSize = 20` gives 20, never 500; and a first page with zero
properties makes either adapter return `[]` immediately. -/
theorem pagination_page_cap (tc ps : Nat) (h : 0 < ps) :
    (total_pages tc ps = min ⌈(tc : ℚ) / (ps : ℚ)⌉₊ 20 ∧
      total_pages 10000 20 = 20) ∧
    ∀ city sc mp Mp ma Ma pts tr tc',
      scrape_land_com city sc mp Mp ma Ma pts
          (some { totalCount := tc', propertyResults := [] }) tr = [] ∧
      scrape_landwatch city sc mp Mp ma Ma pts
          (some { totalCount := tc', propertyResults := [] }) tr = [] := by
  constructor
  · constructor
    · have hpsQ : (0:ℚ) < ps := by exact_mod_cast h
      have key : (tc + ps - 1) / ps = ⌈(tc : ℚ) / (ps : ℚ)⌉₊ := by
        rw [← Nat.ceilDiv_eq_add_pred_div]
        apply le_antisymm
        · rw [ceilDiv_le_iff_le_mul h]
          have h2 : (tc : ℚ) / ps ≤ (⌈(tc:ℚ)/(ps:ℚ)⌉₊ : ℚ) := Nat.le_ceil _
          rw [div_le_iff₀ hpsQ] at h2
          exact_mod_cast h2.trans_eq (mul_comm _ _)
        · rw [Nat.ceil_le]
          have h1 : tc ≤ ps * (tc ⌈/⌉ ps) := le_smul_ceilDiv h
          rw [div_le_iff₀ hpsQ]
          exact_mod_cast h1.trans_eq (mul_comm _ _)
      unfold total_pages
      rw [key]
    · decide
  · intro city sc mp Mp ma Ma pts tr tc'
    exact ⟨rfl, rfl⟩

/-- Witness for `pagination_page_cap` at `totalCount = 10000`,
`pageSize = 20`. -/
theorem pagination_page_cap_witness :
    total_pages 10000 20 = min ⌈(10000 : ℚ) / (20 : ℚ)⌉₊ 20 ∧ total_pages 10000 20 = 20 :=
  ⟨(pagination_page_cap 10000 20 (by decide)).1.1,
    (pagination_page_cap 10000 20 (by decide)).1.2⟩

theorem annotate_listing_fst {α : Type} (dist : ℚ → ℚ → ℚ → ℚ → α) (a b : Option ℚ)
    (l : Listing) : (annotate_listing dist a b l).1 = l := by
  unfold annotate_listing
  split <;> rfl

theorem map_fst_annotate_all {α : Type} (dist : ℚ → ℚ → ℚ → ℚ → α) (a b : Option ℚ)
    (ls : List Listing) : (annotate_all dist a b ls).map Prod.fst = ls := by
  unfold annotate_all
  split
  · rw [List.map_map]
    have hcomp : Prod.fst ∘ annotate_listing dist a b = id := by
      funext l
      exact annotate_listing_fst dist a b l
    rw [hcomp, List.map_id]
  · rw [List.map_map]
    have hcomp : (Prod.fst ∘ fun l => ((l, none) : Listing × Option α)) = id := by
      funext l
      rfl
    rw [hcomp, List.map_id]

theorem annotate_all_append {α : Type} (dist : ℚ → ℚ → ℚ → ℚ → α) (a b : Option ℚ)
    (xs ys : List Listing) :
    annotate_all dist a b (xs ++ ys) = annotate_all dist a b xs ++ annotate_all dist a b ys := by
  unfold annotate_all
  split <;> rw [List.map_append]

theorem mem_annotate_all {α : Type} (dist : ℚ → ℚ → ℚ → ℚ → α) (a b : Option ℚ)
    (ls : List Listing) (l : Listing) (d : Option α)
    (h : (l, d) ∈ annotate_all dist a b ls) :
    l ∈ ls ∧
      d = (if (truthyQ a && truthyQ b) && (truthyQ l.latitude && truthyQ l.longitude) then
        some (dist (b.getD 0) (a.getD 0) (l.longitude.getD 0) (l.latitude.getD 0))
      else none) := by
  unfold annotate_all at h
  by_cases hc : (truthyQ a && truthyQ b) = true
  · rw [if_pos hc] at h
    rcases List.mem_map.mp h with ⟨l0, hl0, heq⟩
    unfold annotate_listing at heq
    by_cases hl : (truthyQ l0.latitude && truthyQ l0.longitude) = true
    · rw [if_pos hl] at heq
      obtain ⟨rfl, rfl⟩ := Prod.ext_iff.mp heq
      exact ⟨hl0, by simp [hc, hl]⟩
    · rw [if_neg hl] at heq
      obtain ⟨rfl, rfl⟩ := Prod.ext_iff.mp heq
      simp only [Bool.not_eq_true] at hl
      exact ⟨hl0, by simp [hc, hl]⟩
  · rw [if_neg hc] at h
    rcases List.mem_map.mp h with ⟨l0, hl0, heq⟩
    obtain ⟨rfl, rfl⟩ := Prod.ext_iff.mp heq
    simp only [Bool.not_eq_true] at hc
    exact ⟨hl0, by simp [hc]⟩

/-- C3: a vendor adapter never lets an exception escape; in the model the
first-page oracle value `none` stands for any exception during first-page
fetch/parse, and the adapter then returns the accumulator, still empty.
In the aggregator a failed vendor contributes zero listings while the
other vendor's listings all still appear, in order. -/
theorem vendor_failure_isolated {α : Type} (dist : ℚ → ℚ → ℚ → ℚ → α) :
    (∀ city sc mp Mp ma Ma pts tr,
      scrape_land_com city sc mp Mp ma Ma pts none tr = [] ∧
      scrape_landwatch city sc mp Mp ma Ma pts none tr = []) ∧
    (∀ cityRow mp Mp ma Ma pts lcTr lwF lwTr,
      (get_listings dist cityRow mp Mp ma Ma [] pts none lcTr lwF lwTr).map Prod.fst =
        scrape_landwatch cityRow.city cityRow.state mp Mp ma Ma pts lwF lwTr) ∧
    ∀ cityRow mp Mp ma Ma pts lcF lcTr lwTr,
      (get_listings dist cityRow mp Mp ma Ma [] pts lcF lcTr none lwTr).map Prod.fst =
        scrape_land_com cityRow.city cityRow.state mp Mp ma Ma pts lcF lcTr := by
  refine ⟨fun _ _ _ _ _ _ _ _ => ⟨rfl, rfl⟩, ?_, ?_⟩
  · intro cityRow mp Mp ma Ma pts lcTr lwF lwTr
    exact map_fst_annotate_all dist _ _ _
  · intro cityRow mp Mp ma Ma pts lcF lcTr lwTr
    show (annotate_all dist cityRow.latitude cityRow.longitude
        (scrape_land_com cityRow.city cityRow.state mp Mp ma Ma pts lcF lcTr ++ [])).map
          Prod.fst = _
    rw [List.append_nil]
    exact map_fst_annotate_all dist _ _ _

/-- C7: with both vendors active (empty source set, or both tags present)
the aggregate is exactly Vendor A's annotated result sequence followed by
Vendor B's; projecting away the annotation gives the two scraped lists
concatenated, so each vendor's internal fetch order is preserved. -/
theorem aggregate_concatenation_order {α : Type} (dist : ℚ → ℚ → ℚ → ℚ → α)
    (cityRow : CityRow) (mp Mp ma Ma : ℤ) (sources pts : List String)
    (lcF lwF : Option SearchResults) (lcTr lwTr : Nat → PageResp)
    (h : sources = [] ∨ ("landcom" ∈ sources ∧ "landwatch" ∈ sources)) :
    get_listings dist cityRow mp Mp ma Ma sources pts lcF lcTr lwF lwTr =
      annotate_all dist cityRow.latitude cityRow.longitude
          (scrape_land_com cityRow.city cityRow.state mp Mp ma Ma pts lcF lcTr) ++
        annotate_all dist cityRow.latitude cityRow.longitude
          (scrape_landwatch cityRow.city cityRow.state mp Mp ma Ma pts lwF lwTr) ∧
    (get_listings dist cityRow mp Mp ma Ma sources pts lcF lcTr lwF lwTr).map Prod.fst =
      scrape_land_com cityRow.city cityRow.state mp Mp ma Ma pts lcF lcTr ++
        scrape_landwatch cityRow.city cityRow.state mp Mp ma Ma pts lwF lwTr := by
  have hA : (sources.isEmpty || sources.contains "landcom") = true := by
    rcases h with rfl | ⟨h1, _⟩
    · rfl
    · rw [Bool.or_eq_true]
      exact Or.inr (List.elem_eq_true_of_mem h1)
  have hB : (sources.isEmpty || sources.contains "landwatch") = true := by
    rcases h with rfl | ⟨_, h2⟩
    · rfl
    · rw [Bool.or_eq_true]
      exact Or.inr (List.elem_eq_true_of_mem h2)
  have hget : get_listings dist cityRow mp Mp ma Ma sources pts lcF lcTr lwF lwTr =
      annotate_all dist cityRow.latitude cityRow.longitude
          (scrape_land_com cityRow.city cityRow.state mp Mp ma Ma pts lcF lcTr) ++
        annotate_all dist cityRow.latitude cityRow.longitude
          (scrape_landwatch cityRow.city cityRow.state mp Mp ma Ma pts lwF lwTr) := by
    unfold get_listings
    dsimp only
    rw [if_pos hA, if_pos hB, annotate_all_append]
  refine ⟨hget, ?_⟩
  rw [hget, List.map_append, map_fst_annotate_all, map_fst_annotate_all]

/-- Reference city used by concrete witnesses. -/
def sampleCityRow : CityRow :=
  { city := "austin", state := "TX", latitude := some 32, longitude := some (-96) }

/-- Trace on which every page request past the first raises. -/
def noPages : Nat → PageResp := fun _ => PageResp.netErr

/-- Witness for `aggregate_concatenation_order` with an empty source set
and a one-listing Land.com first page. -/
theorem aggregate_concatenation_order_witness :
    get_listings (fun a b c d => a + b + c + d) sampleCityRow 0 1000000 0 100 [] []
        (some { totalCount := 1, propertyResults := [sampleAcresOnly] }) noPages none noPages =
      annotate_all (fun a b c d => a + b + c + d) sampleCityRow.latitude sampleCityRow.longitude
          (scrape_land_com sampleCityRow.city sampleCityRow.state 0 1000000 0 100 []
            (some { totalCount := 1, propertyResults := [sampleAcresOnly] }) noPages) ++
        annotate_all (fun a b c d => a + b + c + d) sampleCityRow.latitude sampleCityRow.longitude
          (scrape_landwatch sampleCityRow.city sampleCityRow.state 0 1000000 0 100 []
            none noPages) :=
  (aggregate_concatenation_order (fun a b c d => a + b + c + d) sampleCityRow 0 1000000 0 100
      [] [] (some { totalCount := 1, propertyResults := [sampleAcresOnly] }) none noPages noPages
      (Or.inl rfl)).1

theorem round2_nonneg (x : ℝ) (hx : 0 ≤ x) : 0 ≤ round2 x := by
  unfold round2
  have h1 : (0:ℤ) ≤ round (x * 100) := by
    rw [round_eq]
    apply Int.floor_nonneg.mpr
    linarith
  have h2 : (0:ℝ) ≤ ((round (x * 100) : ℤ) : ℝ) := by exact_mod_cast h1
  exact div_nonneg h2 (by norm_num)

theorem round2_shape (x : ℝ) : ∃ k : ℤ, round2 x = (k : ℝ) / 100 :=
  ⟨round (x * 100), rfl⟩

theorem haversine_nonneg (lon1 lat1 lon2 lat2 : ℚ) : 0 ≤ haversine lon1 lat1 lon2 lat2 := by
  unfold haversine
  apply round2_nonneg
  have h1 : 0 ≤ Real.arcsin (Real.sqrt
      (Real.sin (((lat2 : ℝ) * (Real.pi / 180) - (lat1 : ℝ) * (Real.pi / 180)) / 2) ^ 2 +
        Real.cos ((lat1 : ℝ) * (Real.pi / 180)) * Real.cos ((lat2 : ℝ) * (Real.pi / 180)) *
          Real.sin (((lon2 : ℝ) * (Real.pi / 180) - (lon1 : ℝ) * (Real.pi / 180)) / 2) ^ 2)) :=
    Real.arcsin_nonneg.mpr (Real.sqrt_nonneg _)
  linarith

theorem haversine_rounded (lon1 lat1 lon2 lat2 : ℚ) :
    ∃ k : ℤ, haversine lon1 lat1 lon2 lat2 = (k : ℝ) / 100 := by
  unfold haversine
  exact round2_shape _

/-- C6: every pair in the aggregate output carries
`distance_to_center = haversine(reference.lon, reference.lat, listing.lon,
listing.lat)` exactly when both the reference and the listing have
(truthy) coordinates, and `None` otherwise — in particular `None` for all
listings when the reference lacks coordinates; and any value that is set
is a non-negative real that is an integer number of hundredths. -/
theorem distance_to_center_spec (cityRow : CityRow) (mp Mp ma Ma : ℤ)
    (sources pts : List String) (lcF lwF : Option SearchResults)
    (lcTr lwTr : Nat → PageResp) (l : Listing) (d : Option ℝ)
    (h : (l, d) ∈ get_listings haversine cityRow mp Mp ma Ma sources pts lcF lcTr lwF lwTr) :
    d = (if (truthyQ cityRow.latitude && truthyQ cityRow.longitude) &&
          (truthyQ l.latitude && truthyQ l.longitude) then
        some (haversine (cityRow.longitude.getD 0) (cityRow.latitude.getD 0)
          (l.longitude.getD 0) (l.latitude.getD 0))
      else none) ∧
    ∀ x : ℝ, d = some x → 0 ≤ x ∧ ∃ k : ℤ, x = (k : ℝ) / 100 := by
  rcases mem_annotate_all haversine cityRow.latitude cityRow.longitude _ l d h with ⟨_, hd⟩
  refine ⟨hd, ?_⟩
  intro x hx
  rw [hd] at hx
  split at hx
  · have hx' := Option.some_inj.mp hx
    exact ⟨hx' ▸ haversine_nonneg _ _ _ _, hx' ▸ haversine_rounded _ _ _ _⟩
  · cases hx

/-- Witness for `distance_to_center_spec`: the concrete annotated distance
on the sample aggregation is non-negative and a multiple of 1/100. -/
theorem distance_to_center_spec_witness :
    0 ≤ haversine (-96) 32 (-97) 33 ∧ ∃ k : ℤ, haversine (-96) 32 (-97) 33 = (k : ℝ) / 100 :=
  (distance_to_center_spec sampleCityRow 0 1000000 0 100 [] []
      (some { totalCount := 1, propertyResults := [sampleAcresOnly] }) none noPages noPages
      (normalize_land_com sampleAcresOnly) (some (haversine (-96) 32 (-97) 33))
      (List.Mem.head _)).2
    (haversine (-96) 32 (-97) 33) rfl

/-- C10: presence tests are Python truthiness, so a zero value counts as
absent: a zero latitude or longitude excludes the record from both
vendors; a Vendor A record with price 0 is filtered exactly as if price
were missing; a record with acres 0 is excluded even when `minAcres = 0`;
and a reference location with a zero coordinate leaves
`distance_to_center` null on every listing. -/
theorem zero_treated_as_absent (l : Listing) (mp Mp ma Ma : ℤ) :
    ((l.latitude = some 0 ∨ l.longitude = some 0) →
      landcom_include mp Mp ma Ma l = false ∧ landwatch_include l = false) ∧
    (l.price = some 0 →
      landcom_include mp Mp ma Ma l = landcom_include mp Mp ma Ma { l with price := none }) ∧
    (l.acres = some 0 → landcom_include mp Mp 0 Ma l = false) ∧
    ∀ (α : Type) (dist : ℚ → ℚ → ℚ → ℚ → α) (cityRow : CityRow)
      (sources pts : List String) (lcF lwF : Option SearchResults)
      (lcTr lwTr : Nat → PageResp),
      (cityRow.latitude = some 0 ∨ cityRow.longitude = some 0) →
      ∀ pr ∈ get_listings dist cityRow mp Mp ma Ma sources pts lcF lcTr lwF lwTr,
        pr.2 = (none : Option α) := by
  refine ⟨?_, ?_, ?_, ?_⟩
  · rintro (h | h) <;> simp [landcom_include, landwatch_include, h, truthyQ]
  · intro h
    simp [landcom_include, h, truthyQ]
  · intro h
    simp [landcom_include, h, truthyQ]
  · intro α dist cityRow sources pts lcF lwF lcTr lwTr hzero pr hpr
    obtain ⟨l0, d0⟩ := pr
    rcases mem_annotate_all dist cityRow.latitude cityRow.longitude _ l0 d0 hpr with ⟨_, hd⟩
    rcases hzero with hz | hz
    · have hf : truthyQ cityRow.latitude = false := by rw [hz]; rfl
      simpa [hf] using hd
    · have hf : truthyQ cityRow.longitude = false := by rw [hz]; rfl
      simpa [hf] using hd

/-- Witness for `zero_treated_as_absent`: a record whose latitude is
exactly 0 is rejected by both vendors' filters. -/
theorem zero_treated_as_absent_witness :
    landcom_include 0 1000000 0 100
        (normalize_land_com { sampleAcresOnly with latitude := some 0 }) = false ∧
      landwatch_include (normalize_land_com { sampleAcresOnly with latitude := some 0 }) =
        false :=
  (zero_treated_as_absent (normalize_land_com { sampleAcresOnly with latitude := some 0 })
      0 1000000 0 100).1 (Or.inl rfl)

/-- First-page record for the pagination counterexamples. -/
def cePropA : RawProp :=
  { siteListingId := some "a", latitude := some 33, longitude := some (-97), acres := some 5 }

/-- Page-3 record for the pagination counterexample. -/
def cePropC : RawProp :=
  { siteListingId := some "c", latitude := some 34, longitude := some (-98), acres := some 6 }

/-- First page: one record per page, three records total, so three pages. -/
def ceFirst : SearchResults := { totalCount := 3, propertyResults := [cePropA] }

/-- Parsed body of page 3. -/
def cePage3 : SearchResults := { totalCount := 3, propertyResults := [cePropC] }

/-- Trace for the C4 counterexample: page 2 answers 200 with a malformed
body, page 3 answers 200 with a good record. -/
def ceTrace : Nat → PageResp := fun n =>
  if n = 2 then PageResp.httpResp 200 none
  else if n = 3 then PageResp.httpResp 200 (some cePage3)
  else PageResp.netErr

/-- Trace whose pages all answer 404. -/
def ceTrace404 : Nat → PageResp := fun _ => PageResp.httpResp 404 none

/-- C4 counterexample: on a run whose page 2 is malformed (200 but
unparseable) while page 3 carries an includable record, the adapter
returns only the first page's listing — the page-3 record does not appear
in the result, even though processing page 3 would include it. A
malformed later page is therefore NOT treated like a non-2xx page: it
aborts the whole pagination instead of being skipped. -/
theorem malformed_page_counterexample :
    scrape_land_com "austin" "TX" 0 1000000 0 100 [] (some ceFirst) ceTrace =
        [normalize_land_com cePropA] ∧
      normalize_land_com cePropC ∉
        scrape_land_com "austin" "TX" 0 1000000 0 100 [] (some ceFirst) ceTrace ∧
      normalize_land_com cePropC ∈
        process_landcom_page 0 1000000 0 100 cePage3.propertyResults := by
  refine ⟨by decide, by decide, by decide⟩

/-- C4 amended: a JSON parse failure on a page ≥ 2 aborts the pagination
loop — the adapter keeps only the listings accumulated before that page
and fetches nothing further — whereas a non-2xx status skips only that
page and continues with the remaining page numbers, for both vendors. -/
theorem malformed_page_aborts (mp Mp ma Ma : ℤ) (tr : Nat → PageResp) (p : Nat)
    (rest : List Nat) :
    (tr p = PageResp.httpResp 200 none →
      fetch_landcom_pages mp Mp ma Ma tr (p :: rest) = [] ∧
      fetch_landwatch_pages tr (p :: rest) = []) ∧
    ∀ s body, s ≠ 200 → tr p = PageResp.httpResp s body →
      fetch_landcom_pages mp Mp ma Ma tr (p :: rest) =
          fetch_landcom_pages mp Mp ma Ma tr rest ∧
        fetch_landwatch_pages tr (p :: rest) = fetch_landwatch_pages tr rest := by
  constructor
  · intro h
    constructor
    · unfold fetch_landcom_pages
      rw [h]
      rfl
    · unfold fetch_landwatch_pages
      rw [h]
      rfl
  · intro s body hs h
    constructor
    · conv_lhs => unfold fetch_landcom_pages
      rw [h]
      dsimp only
      rw [if_pos hs]
    · conv_lhs => unfold fetch_landwatch_pages
      rw [h]
      dsimp only
      rw [if_pos hs]

/-- Witness for `malformed_page_aborts`: on the concrete traces, the
malformed page 2 empties the rest of the pagination, and a 404 page is
merely skipped. -/
theorem malformed_page_aborts_witness :
    fetch_landcom_pages 0 1000000 0 100 ceTrace [2, 3] = [] ∧
      fetch_landwatch_pages ceTrace404 [2] = fetch_landwatch_pages ceTrace404 [] :=
  ⟨((malformed_page_aborts 0 1000000 0 100 ceTrace 2 [3]).1 rfl).1,
    ((malformed_page_aborts 0 1000000 0 100 ceTrace404 2 []).2 404 none (by decide) rfl).2⟩

/-- First page repeating one native id twice. -/
def dupFirst : SearchResults := { totalCount := 2, propertyResults := [cePropA, cePropA] }

/-- C9 counterexample: the adapters never deduplicate, so a vendor
response repeating one native id produces two equal `listing_id` values
among the returned records of a single response — within-vendor
`listing_id` values are not pairwise distinct. -/
theorem listing_id_unique_counterexample :
    ¬ ((scrape_land_com "austin" "TX" 0 1000000 0 100 [] (some dupFirst) noPages).map
        Listing.listing_id).Pairwise (fun a b => a ≠ b) := by
  decide

theorem landcom_id_ne_landwatch_id (x y : String) :
    "landcom_" ++ x ≠ "landwatch_" ++ y := by
  intro h
  have hd := congrArg String.data h
  rw [String.data_append, String.data_append] at hd
  have h5 := congrArg (fun l => l.take 5) hd
  simp only at h5
  rw [List.take_append_of_le_length (by decide),
    List.take_append_of_le_length (by decide)] at h5
  exact absurd h5 (by decide)

theorem string_append_left_cancel (s x y : String) (h : s ++ x = s ++ y) : x = y := by
  have hd := congrArg String.data h
  rw [String.data_append, String.data_append] at hd
  exact String.ext (List.append_cancel_left hd)

/-- C9 amended: the `landcom_`/`landwatch_` prefixes do make cross-vendor
collisions impossible — any listing the Land.com adapter returns has a
`listing_id` different from any listing the LandWatch adapter returns —
and within one vendor `listing_id` determines and is determined by the
record's native id; but no deduplication is performed, so repeated native
ids in the vendor's responses repeat `listing_id` in the output (see the
counterexample). -/
theorem listing_id_vendor_disjoint
    (cityA scA cityB scB : String) (mpA MpA maA MaA mpB MpB maB MaB : ℤ)
    (ptsA ptsB : List String) (fA fB : Option SearchResults) (trA trB : Nat → PageResp)
    (la lb : Listing)
    (hA : la ∈ scrape_land_com cityA scA mpA MpA maA MaA ptsA fA trA)
    (hB : lb ∈ scrape_landwatch cityB scB mpB MpB maB MaB ptsB fB trB) :
    la.listing_id ≠ lb.listing_id ∧
    ∀ p q : RawProp,
      ((normalize_land_com p).listing_id = (normalize_land_com q).listing_id ↔
        p.siteListingId.getD "" = q.siteListingId.getD "") ∧
      ((normalize_landwatch p).listing_id = (normalize_landwatch q).listing_id ↔
        p.lwPropertyId.getD "" = q.lwPropertyId.getD "") := by
  constructor
  · rcases mem_scrape_land_com_cases cityA scA mpA MpA maA MaA ptsA fA trA la hA with
      ⟨pa, hpa, _⟩
    rcases mem_scrape_landwatch_cases cityB scB mpB MpB maB MaB ptsB fB trB lb hB with
      ⟨pb, hpb, _⟩
    rw [hpa, hpb]
    exact landcom_id_ne_landwatch_id _ _
  · intro p q
    constructor
    · constructor
      · intro h
        exact string_append_left_cancel "landcom_" _ _ h
      · intro h
        show "landcom_" ++ p.siteListingId.getD "" = "landcom_" ++ q.siteListingId.getD ""
        rw [h]
    · constructor
      · intro h
        exact string_append_left_cancel "landwatch_" _ _ h
      · intro h
        show "landwatch_" ++ p.lwPropertyId.getD "" = "landwatch_" ++ q.lwPropertyId.getD ""
        rw [h]

/-- Sample LandWatch record sharing the native id "a" with `cePropA`. -/
def ceLwProp : RawProp :=
  { lwPropertyId := some "a", latitude := some 33, longitude := some (-97) }

/-- Witness for `listing_id_vendor_disjoint`: two concrete listings, one
per vendor, sharing the native id "a", still get different listing_id. -/
theorem listing_id_vendor_disjoint_witness :
    (normalize_land_com cePropA).listing_id ≠ (normalize_landwatch ceLwProp).listing_id :=
  (listing_id_vendor_disjoint "austin" "TX" "austin" "TX" 0 1000000 0 100 0 1000000 0 100
      [] [] (some ceFirst) (some { totalCount := 1, propertyResults := [ceLwProp] })
      noPages noPages (normalize_land_com cePropA) (normalize_landwatch ceLwProp)
      (by decide) (by decide)).1

end LandEnrichment
